import Mathlib

/-!
Shallow embedding of the cfgrib coordinate-normalisation core:
`cfgrib/cfunits.py` (the pressure unit converter) and `cfgrib/cfcoords.py`
(coordinate recognition, renaming and valid-time derivation).

Numeric values (Python floats) are modelled as exact rationals; mappings
(Python dicts) are modelled as insertion-ordered association lists, and
raised exceptions as `Except` results carrying a structured error value
in place of the Python exception class and message.
-/

namespace Cfgrib

/-- Errors raised by the Python code.  `conversionError s t` stands for
`ConversionError('Cannot convert from %r to %r' % (s, t))`; `roleConflict ct`
for `ValueError("Found more than one CF coordinate with type %r." % ct)`;
`namingConflict ct` for `ValueError("Found non CF compliant coordinate with
type %r" % ct)`; `derivationError` for `ValueError("Not enough information
to ensure a 'valid_time'.")`; `keyError k` for a Python `KeyError` on an
absent mapping key `k`. -/
inductive PyError where
  | conversionError (source_units target_units : String)
  | roleConflict (cf_type : String)
  | namingConflict (cf_type : String)
  | derivationError
  | keyError (key : String)
  deriving Repr, DecidableEq

deriving instance DecidableEq for Except

/-- A rule table: each entry is one unit-equivalence group (a tuple of alias
strings) with its factor, in the insertion order of the Python dict. -/
abbrev Rules := List (List String × ℚ)

/-- Embedding of `PRESSURE_CONVERSION_RULES` (cfunits.py lines 7-13). -/
def PRESSURE_CONVERSION_RULES : Rules :=
  [ (["Pa", "pascal"], 1),
    (["hPa", "hectopascal", "hpascal", "millibar", "mbar"], 100),
    (["decibar", "dbar"], 10000),
    (["bar"], 100000),
    (["atmosphere", "atm"], 101325) ]

/-- One iteration of the loop body of `simple_conversion_factor`
(cfunits.py lines 24-30): divide by the factor when the source unit is in
the group, multiply when the target unit is, counting matches in `seen`. -/
def scf_step (source_units target_units : String) (acc : ℚ × Nat)
    (r : List String × ℚ) : ℚ × Nat :=
  let acc1 := if source_units ∈ r.1 then (acc.1 / r.2, acc.2 + 1) else acc
  if target_units ∈ r.1 then (acc1.1 * r.2, acc1.2 + 1) else acc1

/-- Embedding of `simple_conversion_factor` (cfunits.py lines 20-33). -/
def simple_conversion_factor (source_units target_units : String)
    (rules : Rules) : Except PyError ℚ :=
  let res := rules.foldl (scf_step source_units target_units) (1, 0)
  if res.2 ≠ 2 then .error (.conversionError source_units target_units)
  else .ok res.1

/-- Embedding of `convert_units` (cfunits.py lines 36-45) for scalar data.
The Python loop tries each table of `[PRESSURE_CONVERSION_RULES]` in order,
passing `(target_units, source_units)` positionally to
`simple_conversion_factor`, and re-raises `ConversionError` with its own
argument order if every table fails. -/
def convert_units (data : ℚ) (target_units source_units : String) :
    Except PyError ℚ :=
  if target_units = source_units then .ok data
  else
    match simple_conversion_factor target_units source_units
        PRESSURE_CONVERSION_RULES with
    | .ok factor => .ok (data * factor)
    | .error _ => .error (.conversionError source_units target_units)

/-- Embedding of `are_convertible` (cfunits.py lines 48-54): it calls
`convert_units(1, source_units, target_units)` positionally and reports
whether a `ConversionError` escaped. -/
def are_convertible (source_units target_units : String) : Bool :=
  match convert_units 1 source_units target_units with
  | .ok _ => true
  | .error _ => false

/-! ### Characterisation of the conversion-factor fold -/

/-- The multiplicative contribution of one rule-table group to the
conversion factor. -/
def rule_contrib (source_units target_units : String)
    (r : List String × ℚ) : ℚ :=
  (if source_units ∈ r.1 then 1 / r.2 else 1) *
    (if target_units ∈ r.1 then r.2 else 1)

/-- The contribution of one rule-table group to the `seen` counter. -/
def rule_seen (source_units target_units : String)
    (r : List String × ℚ) : Nat :=
  (if source_units ∈ r.1 then 1 else 0) +
    (if target_units ∈ r.1 then 1 else 0)

/-- How many groups of a rule table contain a given unit string. -/
def unit_mem_count (u : String) : Rules → Nat
  | [] => 0
  | r :: rest => (if u ∈ r.1 then 1 else 0) + unit_mem_count u rest

/-! ### cfcoords.py: the data model

An xarray `DataArray` used as a coordinate is modelled by its dimension
names, its (flattened, row-major) element values, its attribute dict and
its dtype string; a `Dataset` by its insertion-ordered coordinate mapping
and its dimension names.  Data variables play no role in the translated
code paths and are omitted. -/

structure DataArray where
  dims : List String
  values : List ℚ
  attrs : List (String × String)
  dtype : String
  deriving Repr, DecidableEq

structure Dataset where
  coords : List (String × DataArray)
  dims : List String
  deriving Repr, DecidableEq

/-- Python dict lookup `d[k]` / `d.get(k)` on an association list. -/
def alist_get {α : Type} : List (String × α) → String → Option α
  | [], _ => none
  | p :: rest, k => if p.1 = k then some p.2 else alist_get rest k

/-- Python dict assignment `d[k] = v`: replace the value in place when the
key exists, append otherwise. -/
def upsert {α : Type} : List (String × α) → String → α → List (String × α)
  | [], k, v => [(k, v)]
  | p :: rest, k, v => if p.1 = k then (k, v) :: rest else p :: upsert rest k v

/-- Update the value stored under a key, leaving other entries alone. -/
def map_at {α : Type} (l : List (String × α)) (k : String) (f : α → α) :
    List (String × α) :=
  l.map (fun p => if p.1 = k then (p.1, f p.2) else p)

def getAttr (c : DataArray) (k : String) : Option String :=
  alist_get c.attrs k

def setAttr (c : DataArray) (k v : String) : DataArray :=
  { c with attrs := upsert c.attrs k v }

def lookupCoord (ds : Dataset) (name : String) : Option DataArray :=
  alist_get ds.coords name

/-- `data.coords[name] = c`. -/
def setCoord (ds : Dataset) (name : String) (c : DataArray) : Dataset :=
  { ds with coords := upsert ds.coords name c }

/-- `data.coords[name].attrs[k] = v`. -/
def setCoordAttr (ds : Dataset) (name k v : String) : Dataset :=
  { ds with coords := map_at ds.coords name (fun c => setAttr c k v) }

/-- Embedding of `match_values` (cfcoords.py lines 16-22): the names of the
coordinates whose value satisfies the predicate, in mapping order. -/
def match_values (match_value_func : DataArray → Bool) :
    List (String × DataArray) → List String
  | [] => []
  | nc :: rest =>
    if match_value_func nc.2 then nc.1 :: match_values match_value_func rest
    else match_values match_value_func rest

/-- `data.rename({old: new})`: xarray renames the matching coordinate name
and every dimension of that name. -/
def rename (ds : Dataset) (old new : String) : Dataset :=
  { coords := ds.coords.map (fun nc =>
      (if nc.1 = old then new else nc.1,
       { nc.2 with dims := nc.2.dims.map (fun d => if d = old then new else d) })),
    dims := ds.dims.map (fun d => if d = old then new else d) }

/-- `convert_units` (cfunits.py lines 36-45) applied to a coordinate
`DataArray`: the `data * factor` branch is xarray element-wise scalar
multiplication, which drops the attribute dict (default `keep_attrs`
behaviour); the fast path returns the argument unchanged. -/
def convert_units_coord (coord : DataArray)
    (target_units source_units : String) : Except PyError DataArray :=
  if target_units = source_units then .ok coord
  else
    match simple_conversion_factor target_units source_units
        PRESSURE_CONVERSION_RULES with
    | .ok factor =>
      .ok { dims := coord.dims, values := coord.values.map (fun x => x * factor),
            attrs := [], dtype := coord.dtype }
    | .error _ => .error (.conversionError source_units target_units)

/-- The per-role coordinate model override: role identifier to optional
`out_name` and optional `units` (the Python nested dict
`{cf_type: {'out_name': ..., 'units': ...}}`). -/
abbrev CoordModel := List (String × (Option String × Option String))

/-- `coord_model.get(cf_type, {})`. -/
def cm_entry (coord_model : CoordModel) (cf_type : String) :
    Option String × Option String :=
  (alist_get coord_model cf_type).getD (none, none)

/-- Embedding of the module-level default `COORD_MODEL = {}`
(cfcoords.py line 12). -/
def COORD_MODEL : CoordModel := []

/-- Embedding of `translator` (cfcoords.py lines 25-45), the per-role
translation step. -/
def translator (default_out_name default_units : String)
    (is_cf_type : DataArray → Bool) (cf_type : String) (data : Dataset)
    (coord_model : CoordModel) : Except PyError Dataset :=
  let out_name := (cm_entry coord_model cf_type).1.getD default_out_name
  let units := (cm_entry coord_model cf_type).2.getD default_units
  let matchs := match_values is_cf_type data.coords
  if 1 < matchs.length then .error (.roleConflict cf_type)
  else
    match matchs with
    | [] => .ok data
    | mtch :: _ =>
      if data.coords.any (fun nc => nc.1 == out_name && nc.1 != mtch) then
        .error (.namingConflict cf_type)
      else
        let data1 := rename data mtch out_name
        match lookupCoord data1 out_name with
        | none => .error (.keyError out_name)
        | some coord =>
          match getAttr coord "units" with
          | none => .ok data1
          | some source_units =>
            match convert_units_coord coord units source_units with
            | .error e => .error e
            | .ok conv =>
              .ok (setCoordAttr (setCoord data1 out_name conv)
                    out_name "untis" units)

/-- `VALID_LAT_UNITS` (cfcoords.py line 48). -/
def VALID_LAT_UNITS : List String :=
  ["degrees_north", "degree_north", "degree_N", "degrees_N", "degreeN",
   "degreesN"]

/-- `is_latitude` (cfcoords.py lines 51-53). -/
def is_latitude (coord : DataArray) : Bool :=
  match getAttr coord "units" with
  | some u => if u ∈ VALID_LAT_UNITS then true else false
  | none => false

/-- `VALID_LON_UNITS` (cfcoords.py line 61). -/
def VALID_LON_UNITS : List String :=
  ["degrees_east", "degree_east", "degree_E", "degrees_E", "degreeE",
   "degreesE"]

/-- `is_longitude` (cfcoords.py lines 64-66). -/
def is_longitude (coord : DataArray) : Bool :=
  match getAttr coord "units" with
  | some u => if u ∈ VALID_LON_UNITS then true else false
  | none => false

/-- `is_forecast_reference_time` (cfcoords.py lines 74-76). -/
def is_forecast_reference_time (coord : DataArray) : Bool :=
  getAttr coord "standard_name" == some "forecast_reference_time"

/-- `is_forecast_period` (cfcoords.py lines 84-86). -/
def is_forecast_period (coord : DataArray) : Bool :=
  getAttr coord "standard_name" == some "forecast_period"

/-- `is_valid_time` (cfcoords.py lines 94-100). -/
def is_valid_time (coord : DataArray) : Bool :=
  if getAttr coord "standard_name" = some "time" then true
  else if coord.dtype = "datetime64[ns]" ∧ getAttr coord "standard_name" = none
  then true
  else false

/-- `is_vertical_pressure` (cfcoords.py lines 108-110). -/
def is_vertical_pressure (coord : DataArray) : Bool :=
  are_convertible ((getAttr coord "units").getD "") "Pa"

/-- `is_realization` (cfcoords.py lines 118-120). -/
def is_realization (coord : DataArray) : Bool :=
  getAttr coord "standard_name" == some "realization"

/-- Embedding of the `TRANSLATORS` registry (cfcoords.py lines 13, 56-125)
in dict insertion order: each entry pairs the role identifier with the
partially applied `translator`. -/
def TRANSLATORS :
    List (String × (String → Dataset → CoordModel → Except PyError Dataset)) :=
  [ ("latitude", fun ct d cm => translator "latitude" "degrees_north" is_latitude ct d cm),
    ("longitude", fun ct d cm => translator "longitude" "degrees_east" is_longitude ct d cm),
    ("forecast_reference_time", fun ct d cm =>
      translator "time" "seconds since 1970-01-01T00:00:00+00:00"
        is_forecast_reference_time ct d cm),
    ("forecast_period", fun ct d cm => translator "step" "h" is_forecast_period ct d cm),
    ("valid_time", fun ct d cm =>
      translator "valid_time" "seconds since 1970-01-01T00:00:00+00:00"
        is_valid_time ct d cm),
    ("vertical_pressure", fun ct d cm => translator "level" "hPa" is_vertical_pressure ct d cm),
    ("realization", fun ct d cm => translator "number" "1" is_realization ct d cm) ]

/-- Embedding of `translate` (cfcoords.py lines 128-132): apply every
registered role translator in registration order, threading the dataset;
a raised error aborts the loop. -/
def translate (data : Dataset) (coord_model : CoordModel)
    (translators : List (String × (String → Dataset → CoordModel → Except PyError Dataset))) : Except PyError Dataset :=
  translators.foldlM (fun d ct => ct.2 ct.1 d coord_model) data

/-- xarray `DataArray` addition as used on line 148 of cfcoords.py:
element-wise when the operands share their dimensions, outer broadcast sum
when they do not; arithmetic drops the attribute dict. -/
def addDA (a b : DataArray) : DataArray :=
  if a.dims = b.dims then
    { dims := a.dims, values := List.zipWith (fun x y => x + y) a.values b.values,
      attrs := [], dtype := a.dtype }
  else
    { dims := a.dims ++ b.dims,
      values := (a.values.map (fun x => b.values.map (fun y => x + y))).flatten,
      attrs := [], dtype := a.dtype }

/-- Embedding of `ensure_valid_time_present` (cfcoords.py lines 135-154).
The Python function mutates `data` in place and returns the three names;
the model returns the updated dataset alongside them. -/
def ensure_valid_time_present (data : Dataset)
    (valid_time_name : String) :
    Except PyError (Dataset × String × String × String) :=
  let valid_times := match_values is_valid_time data.coords
  let times := match_values is_forecast_reference_time data.coords
  let steps := match_values is_forecast_period data.coords
  match valid_times with
  | valid_time :: _ => .ok (data, valid_time, "", "")
  | [] =>
    match times with
    | [] => .error .derivationError
    | time :: _ =>
      let valid_time := valid_time_name
      match steps with
      | step :: _ =>
        match lookupCoord data time, lookupCoord data step with
        | some tc, some sc =>
          .ok (setCoordAttr (setCoord data valid_time (addDA tc sc))
                 valid_time "standard_name" "time",
               valid_time, time, step)
        | none, _ => .error (.keyError time)
        | some _, none => .error (.keyError step)
      | [] =>
        match lookupCoord data time with
        | some tc =>
          .ok (setCoordAttr (setCoord data valid_time tc)
                 valid_time "standard_name" "time",
               valid_time, time, "")
        | none => .error (.keyError time)

/-- `data.swap_dims({old: new})` restricted to what the call sites use:
replace the old dimension name by the new one. -/
def swap_dims (data : Dataset) (old new : String) : Dataset :=
  { data with dims := data.dims.map (fun d => if d = old then new else d) }

/-- Embedding of `ensure_valid_time` (cfcoords.py lines 157-165), keeping
the literal `data.coords[step].size == data.coords[step].size` comparison
of line 163.  `.size` is the element count; a lookup of an absent
coordinate name is a Python `KeyError`. -/
def ensure_valid_time (data : Dataset) : Except PyError Dataset :=
  match ensure_valid_time_present data "valid_time" with
  | .error e => .error e
  | .ok (data1, valid_time, time, step) =>
    if valid_time ∈ data1.dims then .ok data1
    else
      match lookupCoord data1 time with
      | none => .error (.keyError time)
      | some tc =>
        match lookupCoord data1 valid_time with
        | none => .error (.keyError valid_time)
        | some vtc =>
          if tc.values.length = vtc.values.length then
            .ok (swap_dims data1 time valid_time)
          else
            match lookupCoord data1 step with
            | none => .error (.keyError step)
            | some sc =>
              if sc.values.length = sc.values.length then
                .ok (swap_dims data1 step valid_time)
              else .ok data1

/-! ### Concrete inputs for the claims -/

/-- C1 failing input: one coordinate whose units attribute is
'degree_north'. -/
def c1_dataset : Dataset :=
  { coords := [("lat",
      { dims := ["lat"], values := [10], attrs := [("units", "degree_north")],
        dtype := "float64" })],
    dims := ["lat"] }

/-- C2 witness input: a reference-time coordinate. -/
def c2_time_coord : DataArray :=
  { dims := ["time"], values := [1, 2],
    attrs := [("standard_name", "forecast_reference_time")],
    dtype := "datetime64[ns]" }

/-- C2 witness input: a period coordinate on the same dimension. -/
def c2_step_coord : DataArray :=
  { dims := ["time"], values := [10, 20],
    attrs := [("standard_name", "forecast_period")],
    dtype := "timedelta64[ns]" }

/-- C2 witness input: reference time and period, no valid time. -/
def c2_dataset : Dataset :=
  { coords := [("time", c2_time_coord), ("step", c2_step_coord)],
    dims := ["time"] }

/-- C3 failing input: one pressure-level coordinate with units 'Pa'. -/
def c3_dataset : Dataset :=
  { coords := [("lev",
      { dims := ["lev"], values := [100], attrs := [("units", "Pa")],
        dtype := "float64" })],
    dims := ["lev"] }

/-- C4 failing input: reference time with two elements, period with three,
no valid time; the derived valid-time coordinate has six elements. -/
def c4_dataset : Dataset :=
  { coords := [("t",
      { dims := ["t"], values := [0, 1],
        attrs := [("standard_name", "forecast_reference_time")],
        dtype := "datetime64[ns]" }),
      ("s",
      { dims := ["s"], values := [0, 1, 2],
        attrs := [("standard_name", "forecast_period")],
        dtype := "timedelta64[ns]" })],
    dims := ["t", "s"] }

/-- C8 witness input: two coordinates that both satisfy the latitude
predicate. -/
def c8_dataset : Dataset :=
  { coords := [("lat1",
      { dims := ["lat1"], values := [0], attrs := [("units", "degrees_north")],
        dtype := "float64" }),
      ("lat2",
      { dims := ["lat2"], values := [0], attrs := [("units", "degree_N")],
        dtype := "float64" })],
    dims := ["lat1", "lat2"] }

/-- C9 witness input: a single latitude coordinate already bearing the
canonical name with canonical units. -/
def c9_dataset : Dataset :=
  { coords := [("latitude",
      { dims := ["latitude"], values := [1],
        attrs := [("units", "degrees_north")], dtype := "float64" })],
    dims := ["latitude"] }

/-- C10 witness input: a non-dimension valid-time coordinate alongside a
reference-time coordinate. -/
def c10_dataset : Dataset :=
  { coords := [("vt",
      { dims := ["x"], values := [0], attrs := [("standard_name", "time")],
        dtype := "datetime64[ns]" }),
      ("t",
      { dims := ["x"], values := [0],
        attrs := [("standard_name", "forecast_reference_time")],
        dtype := "datetime64[ns]" })],
    dims := ["x"] }

theorem scf_step_fst (s t : String) (acc : ℚ × Nat) (r : List String × ℚ) :
    (scf_step s t acc r).1 = acc.1 * rule_contrib s t r := by
  unfold scf_step rule_contrib
  split_ifs <;> dsimp only <;> ring

theorem scf_step_snd (s t : String) (acc : ℚ × Nat) (r : List String × ℚ) :
    (scf_step s t acc r).2 = acc.2 + rule_seen s t r := by
  unfold scf_step rule_seen
  split_ifs <;> dsimp only <;> ring

theorem foldl_scf_step (s t : String) (rules : Rules) (init : ℚ × Nat) :
    rules.foldl (scf_step s t) init
      = (init.1 * (rules.map (rule_contrib s t)).prod,
         init.2 + (rules.map (rule_seen s t)).sum) := by
  induction rules generalizing init with
  | nil => simp
  | cons r rs ih =>
    rw [List.foldl_cons, ih]
    rw [scf_step_fst, scf_step_snd]
    simp [mul_assoc, add_assoc]

theorem simple_conversion_factor_eq (s t : String) (rules : Rules) :
    simple_conversion_factor s t rules
      = if (rules.map (rule_seen s t)).sum = 2
        then .ok ((rules.map (rule_contrib s t)).prod)
        else .error (.conversionError s t) := by
  unfold simple_conversion_factor
  rw [foldl_scf_step]
  by_cases h : (rules.map (rule_seen s t)).sum = 2
  · simp [h]
  · simp [h]

theorem rule_seen_comm (s t : String) (r : List String × ℚ) :
    rule_seen s t r = rule_seen t s r := by
  unfold rule_seen; ring

theorem seen_sum_comm (s t : String) (rules : Rules) :
    (rules.map (rule_seen s t)).sum = (rules.map (rule_seen t s)).sum := by
  induction rules with
  | nil => rfl
  | cons r rs ih => simp [ih, rule_seen_comm s t r]

theorem seen_sum_eq_mem_count (s t : String) (rules : Rules) :
    (rules.map (rule_seen s t)).sum
      = unit_mem_count s rules + unit_mem_count t rules := by
  induction rules with
  | nil => rfl
  | cons r rs ih =>
    simp only [List.map_cons, List.sum_cons, unit_mem_count, ih, rule_seen]
    ring

theorem rule_contrib_mul_inv (s t : String) (r : List String × ℚ)
    (hf : r.2 ≠ 0) : rule_contrib s t r * rule_contrib t s r = 1 := by
  unfold rule_contrib
  split_ifs <;> field_simp

theorem prod_contrib_mul (s t : String) (rules : Rules)
    (h : ∀ r ∈ rules, r.2 ≠ 0) :
    (rules.map (rule_contrib s t)).prod * (rules.map (rule_contrib t s)).prod
      = 1 := by
  induction rules with
  | nil => simp
  | cons r rs ih =>
    have hr : r.2 ≠ 0 := h r (List.mem_cons_self r rs)
    have hrs : ∀ q ∈ rs, q.2 ≠ 0 := fun q hq => h q (List.mem_cons_of_mem r hq)
    simp only [List.map_cons, List.prod_cons]
    calc rule_contrib s t r * (rs.map (rule_contrib s t)).prod *
          (rule_contrib t s r * (rs.map (rule_contrib t s)).prod)
        = (rule_contrib s t r * rule_contrib t s r) *
            ((rs.map (rule_contrib s t)).prod *
              (rs.map (rule_contrib t s)).prod) := by ring
      _ = 1 := by rw [rule_contrib_mul_inv s t r hr, ih hrs, one_mul]

theorem pressure_factors_ne_zero :
    ∀ r ∈ PRESSURE_CONVERSION_RULES, r.2 ≠ 0 := by decide

/-- The conversion factor from hPa to Pa data (`simple_conversion_factor`
applied as `convert_units` does for `convert_units(x, 'hPa', 'Pa')`). -/
theorem scf_hPa_Pa :
    simple_conversion_factor "hPa" "Pa" PRESSURE_CONVERSION_RULES
      = .ok (1 / 100) := by
  have e1 : rule_contrib "hPa" "Pa" (["Pa", "pascal"], 1) = 1 := by
    unfold rule_contrib
    rw [if_neg (by decide), if_pos (by decide)]; norm_num
  have e2 : rule_contrib "hPa" "Pa"
      (["hPa", "hectopascal", "hpascal", "millibar", "mbar"], 100) = 1 / 100 := by
    unfold rule_contrib
    rw [if_pos (by decide), if_neg (by decide)]; norm_num
  have e3 : rule_contrib "hPa" "Pa" (["decibar", "dbar"], 10000) = 1 := by
    unfold rule_contrib
    rw [if_neg (by decide), if_neg (by decide)]; norm_num
  have e4 : rule_contrib "hPa" "Pa" (["bar"], 100000) = 1 := by
    unfold rule_contrib
    rw [if_neg (by decide), if_neg (by decide)]; norm_num
  have e5 : rule_contrib "hPa" "Pa" (["atmosphere", "atm"], 101325) = 1 := by
    unfold rule_contrib
    rw [if_neg (by decide), if_neg (by decide)]; norm_num
  rw [simple_conversion_factor_eq, if_pos (by decide)]
  unfold PRESSURE_CONVERSION_RULES
  simp only [List.map_cons, List.map_nil, List.prod_cons, List.prod_nil,
    e1, e2, e3, e4, e5]
  norm_num

/-- The conversion factor from Pa to hPa data. -/
theorem scf_Pa_hPa :
    simple_conversion_factor "Pa" "hPa" PRESSURE_CONVERSION_RULES
      = .ok 100 := by
  have f1 : rule_contrib "Pa" "hPa" (["Pa", "pascal"], 1) = 1 := by
    unfold rule_contrib
    rw [if_pos (by decide), if_neg (by decide)]; norm_num
  have f2 : rule_contrib "Pa" "hPa"
      (["hPa", "hectopascal", "hpascal", "millibar", "mbar"], 100) = 100 := by
    unfold rule_contrib
    rw [if_neg (by decide), if_pos (by decide)]; norm_num
  have f3 : rule_contrib "Pa" "hPa" (["decibar", "dbar"], 10000) = 1 := by
    unfold rule_contrib
    rw [if_neg (by decide), if_neg (by decide)]; norm_num
  have f4 : rule_contrib "Pa" "hPa" (["bar"], 100000) = 1 := by
    unfold rule_contrib
    rw [if_neg (by decide), if_neg (by decide)]; norm_num
  have f5 : rule_contrib "Pa" "hPa" (["atmosphere", "atm"], 101325) = 1 := by
    unfold rule_contrib
    rw [if_neg (by decide), if_neg (by decide)]; norm_num
  rw [simple_conversion_factor_eq, if_pos (by decide)]
  unfold PRESSURE_CONVERSION_RULES
  simp only [List.map_cons, List.map_nil, List.prod_cons, List.prod_nil,
    f1, f2, f3, f4, f5]
  norm_num

/-- C5: `convert_units(1, 'hPa', 'Pa')` returns 0.01 and
`convert_units(1, 'Pa', 'hPa')` returns 100; the conversion factor comes
from the pressure rule table with `simple_conversion_factor`'s source unit
contributing a division by its group factor and its target unit a
multiplication by its group factor. -/
theorem c5_convert_units_pressure :
    convert_units 1 "hPa" "Pa" = .ok (1 / 100)
    ∧ convert_units 1 "Pa" "hPa" = .ok 100
    ∧ simple_conversion_factor "hPa" "Pa" PRESSURE_CONVERSION_RULES
        = .ok (1 / 100 * 1)
    ∧ simple_conversion_factor "Pa" "hPa" PRESSURE_CONVERSION_RULES
        = .ok (1 / 1 * 100) := by
  refine ⟨?_, ?_, ?_, ?_⟩
  · rw [convert_units, if_neg (by decide), scf_hPa_Pa]
    norm_num
  · rw [convert_units, if_neg (by decide), scf_Pa_hPa]
    norm_num
  · rw [scf_hPa_Pa]
    norm_num
  · rw [scf_Pa_hPa]
    norm_num

theorem pressure_unit_mem_count_le_one (u : String) :
    unit_mem_count u PRESSURE_CONVERSION_RULES ≤ 1 := by
  by_cases h1 : u ∈ ["Pa", "pascal"]
  · simp only [List.mem_cons, List.not_mem_nil, or_false] at h1
    rcases h1 with rfl | rfl <;> decide
  by_cases h2 : u ∈ ["hPa", "hectopascal", "hpascal", "millibar", "mbar"]
  · simp only [List.mem_cons, List.not_mem_nil, or_false] at h2
    rcases h2 with rfl | rfl | rfl | rfl | rfl <;> decide
  by_cases h3 : u ∈ ["decibar", "dbar"]
  · simp only [List.mem_cons, List.not_mem_nil, or_false] at h3
    rcases h3 with rfl | rfl <;> decide
  by_cases h4 : u ∈ ["bar"]
  · simp only [List.mem_cons, List.not_mem_nil, or_false] at h4
    rcases h4 with rfl
    decide
  by_cases h5 : u ∈ ["atmosphere", "atm"]
  · simp only [List.mem_cons, List.not_mem_nil, or_false] at h5
    rcases h5 with rfl | rfl <;> decide
  have h0 : unit_mem_count u PRESSURE_CONVERSION_RULES = 0 := by
    simp only [PRESSURE_CONVERSION_RULES, unit_mem_count]
    rw [if_neg h1, if_neg h2, if_neg h3, if_neg h4, if_neg h5]
  omega

/-- C6: for every pair of unit strings for which conversion succeeds and
every value, converting from one to the other and back is the identity:
`convert_units(convert_units(x, b, a), a, b) == x`.  Values are modelled as
exact rationals. -/
theorem c6_round_trip (a b : String) (x : ℚ)
    (h : are_convertible a b = true) :
    (convert_units x b a).bind (fun y => convert_units y a b) = .ok x := by
  by_cases hab : a = b
  · subst hab
    have hx : convert_units x a a = .ok x := by
      unfold convert_units; rw [if_pos rfl]
    rw [hx]
    show convert_units x a a = .ok x
    exact hx
  · have hsym : ¬ (b = a) := fun hba => hab hba.symm
    cases hc : convert_units 1 a b with
    | error e =>
      rw [are_convertible, hc] at h
      exact absurd h (by simp)
    | ok v =>
      unfold convert_units at hc
      rw [if_neg hab] at hc
      have hseen : (PRESSURE_CONVERSION_RULES.map (rule_seen a b)).sum = 2 := by
        by_contra h2
        rw [simple_conversion_factor_eq, if_neg h2] at hc
        exact Except.noConfusion hc
      have hseen2 : (PRESSURE_CONVERSION_RULES.map (rule_seen b a)).sum = 2 := by
        rw [seen_sum_comm b a]; exact hseen
      have hsA : simple_conversion_factor a b PRESSURE_CONVERSION_RULES
          = .ok ((PRESSURE_CONVERSION_RULES.map (rule_contrib a b)).prod) := by
        rw [simple_conversion_factor_eq, if_pos hseen]
      have hsB : simple_conversion_factor b a PRESSURE_CONVERSION_RULES
          = .ok ((PRESSURE_CONVERSION_RULES.map (rule_contrib b a)).prod) := by
        rw [simple_conversion_factor_eq, if_pos hseen2]
      have hinner : convert_units x b a
          = .ok (x * (PRESSURE_CONVERSION_RULES.map (rule_contrib b a)).prod) := by
        unfold convert_units
        rw [if_neg hsym, hsB]
      have houter : ∀ y : ℚ, convert_units y a b
          = .ok (y * (PRESSURE_CONVERSION_RULES.map (rule_contrib a b)).prod) := by
        intro y
        unfold convert_units
        rw [if_neg hab, hsA]
      rw [hinner]
      show convert_units _ a b = .ok x
      rw [houter, mul_assoc,
        prod_contrib_mul b a PRESSURE_CONVERSION_RULES pressure_factors_ne_zero,
        mul_one]

/-- Witness for C6: a concrete round trip, hPa to Pa and back at x = 3. -/
theorem c6_round_trip_witness :
    are_convertible "hPa" "Pa" = true
    ∧ (convert_units 3 "Pa" "hPa").bind
        (fun y => convert_units y "hPa" "Pa") = .ok 3 := by
  have hok : ∃ v, convert_units 1 "hPa" "Pa" = .ok v := by
    unfold convert_units
    rw [if_neg (by decide), simple_conversion_factor_eq, if_pos (by decide)]
    exact ⟨_, rfl⟩
  obtain ⟨v, hv⟩ := hok
  have h : are_convertible "hPa" "Pa" = true := by
    rw [are_convertible, hv]
  exact ⟨h, c6_round_trip "hPa" "Pa" 3 h⟩

/-- C7: `simple_conversion_factor` fails with `ConversionError` exactly when
the total number of group-membership matches of the source and the target
unit string over the whole rule table differs from two; consequently, for
distinct unit strings at least one of which belongs to no group, such as
`'m'` versus `'Pa'`, `are_convertible` is false and `convert_units` fails
with `ConversionError` for every value. -/
theorem c7_conversion_error_iff :
    (∀ s t : String,
        (∃ e, simple_conversion_factor s t PRESSURE_CONVERSION_RULES
            = .error e)
          ↔ unit_mem_count s PRESSURE_CONVERSION_RULES
              + unit_mem_count t PRESSURE_CONVERSION_RULES ≠ 2)
    ∧ (∀ a b : String, a ≠ b →
        unit_mem_count a PRESSURE_CONVERSION_RULES = 0
          ∨ unit_mem_count b PRESSURE_CONVERSION_RULES = 0 →
        are_convertible a b = false
          ∧ ∀ x : ℚ, convert_units x a b = .error (.conversionError b a))
    ∧ are_convertible "m" "Pa" = false
    ∧ (∀ x : ℚ, convert_units x "m" "Pa"
        = .error (.conversionError "Pa" "m")) := by
  have part1 : ∀ s t : String,
      (∃ e, simple_conversion_factor s t PRESSURE_CONVERSION_RULES = .error e)
        ↔ unit_mem_count s PRESSURE_CONVERSION_RULES
            + unit_mem_count t PRESSURE_CONVERSION_RULES ≠ 2 := by
    intro s t
    constructor
    · rintro ⟨e, he⟩ hc
      rw [simple_conversion_factor_eq, seen_sum_eq_mem_count,
        if_pos hc] at he
      exact Except.noConfusion he
    · intro hc
      refine ⟨.conversionError s t, ?_⟩
      rw [simple_conversion_factor_eq, seen_sum_eq_mem_count, if_neg hc]
  have part2 : ∀ a b : String, a ≠ b →
      unit_mem_count a PRESSURE_CONVERSION_RULES = 0
        ∨ unit_mem_count b PRESSURE_CONVERSION_RULES = 0 →
      are_convertible a b = false
        ∧ ∀ x : ℚ, convert_units x a b = .error (.conversionError b a) := by
    intro a b hab hone
    have la := pressure_unit_mem_count_le_one a
    have lb := pressure_unit_mem_count_le_one b
    have hsum : unit_mem_count a PRESSURE_CONVERSION_RULES
        + unit_mem_count b PRESSURE_CONVERSION_RULES ≠ 2 := by
      rcases hone with h0 | h0 <;> omega
    have hconv : ∀ x : ℚ, convert_units x a b
        = .error (.conversionError b a) := by
      intro x
      unfold convert_units
      rw [if_neg hab, simple_conversion_factor_eq, seen_sum_eq_mem_count,
        if_neg hsum]
    refine ⟨?_, hconv⟩
    rw [are_convertible, hconv 1]
  exact ⟨part1, part2,
    (part2 "m" "Pa" (by decide) (Or.inl (by decide))).1,
    (part2 "m" "Pa" (by decide) (Or.inl (by decide))).2⟩

/-- Witness for C7 at the concrete pair 'm' versus 'Pa' and value 5. -/
theorem c7_conversion_error_iff_witness :
    are_convertible "m" "Pa" = false
    ∧ convert_units 5 "m" "Pa" = .error (.conversionError "Pa" "m")
    ∧ (∃ e, simple_conversion_factor "m" "Pa" PRESSURE_CONVERSION_RULES
        = .error e) :=
  ⟨c7_conversion_error_iff.2.2.1,
   c7_conversion_error_iff.2.2.2 5,
   (c7_conversion_error_iff.1 "m" "Pa").mpr (by decide)⟩

/-! ### Mapping and dataset lemmas -/

theorem alist_get_upsert_same {α : Type} (l : List (String × α)) (k : String)
    (v : α) : alist_get (upsert l k v) k = some v := by
  induction l with
  | nil => simp [upsert, alist_get]
  | cons p rest ih =>
    by_cases h : p.1 = k
    · simp [upsert, h, alist_get]
    · simp [upsert, h, alist_get, ih]

theorem alist_get_map_at_same {α : Type} (l : List (String × α)) (k : String)
    (f : α → α) : alist_get (map_at l k f) k = (alist_get l k).map f := by
  induction l with
  | nil => simp [map_at, alist_get]
  | cons p rest ih =>
    by_cases h : p.1 = k
    · simp [map_at, alist_get, h]
    · simp only [map_at, List.map_cons] at ih ⊢
      rw [if_neg h, alist_get, alist_get, if_neg h, if_neg h, ih]

theorem getAttr_setAttr_same (c : DataArray) (k v : String) :
    getAttr (setAttr c k v) k = some v := by
  simp [getAttr, setAttr, alist_get_upsert_same]

theorem setAttr_values (c : DataArray) (k v : String) :
    (setAttr c k v).values = c.values := rfl

theorem lookupCoord_setCoord_same (ds : Dataset) (n : String) (c : DataArray) :
    lookupCoord (setCoord ds n c) n = some c := by
  simp [lookupCoord, setCoord, alist_get_upsert_same]

theorem lookupCoord_setCoordAttr_same (ds : Dataset) (n k v : String) :
    lookupCoord (setCoordAttr ds n k v) n
      = (lookupCoord ds n).map (fun c => setAttr c k v) := by
  simp [lookupCoord, setCoordAttr, alist_get_map_at_same]

theorem match_values_mem {p : DataArray → Bool} :
    ∀ {coords : List (String × DataArray)} {x : String},
      x ∈ match_values p coords → ∃ c, (x, c) ∈ coords := by
  intro coords
  induction coords with
  | nil => intro x h; simp [match_values] at h
  | cons nc rest ih =>
    obtain ⟨n0, c0⟩ := nc
    intro x h
    by_cases hp : p c0
    · rw [match_values, if_pos hp] at h
      rcases List.mem_cons.mp h with rfl | h2
      · exact ⟨c0, List.mem_cons_self _ _⟩
      · obtain ⟨c, hc⟩ := ih h2
        exact ⟨c, List.mem_cons_of_mem _ hc⟩
    · rw [match_values, if_neg hp] at h
      obtain ⟨c, hc⟩ := ih h
      exact ⟨c, List.mem_cons_of_mem _ hc⟩

theorem rename_same (ds : Dataset) (m : String) : rename ds m m = ds := by
  have hf : ∀ x : String, (if x = m then m else x) = x := by
    intro x
    split_ifs with h
    · exact h.symm
    · rfl
  cases ds with
  | mk coords dims =>
    simp [rename, hf]

/-- `List.foldlM` over `Except` aborts at the first error. -/
theorem except_foldlM_error {α β : Type} (f : β → α → Except PyError β)
    (e : PyError) (b : β) (x : α) (l : List α) (hx : f b x = .error e) :
    List.foldlM f b (x :: l) = .error e := by
  rw [List.foldlM_cons, hx]
  rfl

/-- When exactly one coordinate matches and no other coordinate bears the
canonical name, `translator` proceeds to the rename-and-convert tail. -/
theorem translator_single_match (dn du : String) (p : DataArray → Bool)
    (ct : String) (ds : Dataset) (cm : CoordModel) (mtch : String)
    (hm : match_values p ds.coords = [mtch])
    (hany : ds.coords.any (fun nc =>
        nc.1 == (cm_entry cm ct).1.getD dn && nc.1 != mtch) = false) :
    translator dn du p ct ds cm =
      (match lookupCoord (rename ds mtch ((cm_entry cm ct).1.getD dn))
          ((cm_entry cm ct).1.getD dn) with
       | none => .error (.keyError ((cm_entry cm ct).1.getD dn))
       | some coord =>
         match getAttr coord "units" with
         | none => .ok (rename ds mtch ((cm_entry cm ct).1.getD dn))
         | some source_units =>
           match convert_units_coord coord ((cm_entry cm ct).2.getD du)
               source_units with
           | .error e => .error e
           | .ok conv =>
             .ok (setCoordAttr
                   (setCoord (rename ds mtch ((cm_entry cm ct).1.getD dn))
                     ((cm_entry cm ct).1.getD dn) conv)
                   ((cm_entry cm ct).1.getD dn) "untis"
                   ((cm_entry cm ct).2.getD du))) := by
  unfold translator
  rw [hm]
  rw [if_neg (by simp)]
  show (if (ds.coords.any fun nc =>
      nc.1 == (cm_entry cm ct).1.getD dn && nc.1 != mtch) = true
    then _ else _) = _
  rw [hany]
  simp only [Bool.false_eq_true, if_false]

/-- When exactly one coordinate matches but another coordinate bears the
canonical name, `translator` raises the naming-conflict `ValueError`. -/
theorem translator_name_conflict (dn du : String) (p : DataArray → Bool)
    (ct : String) (ds : Dataset) (cm : CoordModel) (mtch : String)
    (hm : match_values p ds.coords = [mtch])
    (hany : ds.coords.any (fun nc =>
        nc.1 == (cm_entry cm ct).1.getD dn && nc.1 != mtch) = true) :
    translator dn du p ct ds cm = .error (.namingConflict ct) := by
  unfold translator
  rw [hm]
  rw [if_neg (by simp)]
  show (if (ds.coords.any fun nc =>
      nc.1 == (cm_entry cm ct).1.getD dn && nc.1 != mtch) = true
    then _ else _) = _
  rw [hany]
  simp only [if_true]

theorem convert_units_coord_error_shape (c : DataArray) (t s : String)
    (e : PyError) (h : convert_units_coord c t s = .error e) :
    e = .conversionError s t := by
  by_cases hts : t = s
  · rw [convert_units_coord, if_pos hts] at h
    exact Except.noConfusion h
  · rw [convert_units_coord, if_neg hts] at h
    cases hs : simple_conversion_factor t s PRESSURE_CONVERSION_RULES with
    | ok f =>
      rw [hs] at h
      exact Except.noConfusion h
    | error e3 =>
      rw [hs] at h
      exact (Except.error.inj h).symm

/-- With a single match and no name collision, the translator never raises
the naming-conflict error (it may still raise a `ConversionError` or
succeed). -/
theorem translator_no_naming_conflict (dn du : String) (p : DataArray → Bool)
    (ct : String) (ds : Dataset) (cm : CoordModel) (mtch : String)
    (hm : match_values p ds.coords = [mtch])
    (hany : ds.coords.any (fun nc =>
        nc.1 == (cm_entry cm ct).1.getD dn && nc.1 != mtch) = false) :
    ∀ e : String, translator dn du p ct ds cm ≠ .error (.namingConflict e) := by
  intro e
  rw [translator_single_match dn du p ct ds cm mtch hm hany]
  cases hl : lookupCoord (rename ds mtch ((cm_entry cm ct).1.getD dn))
      ((cm_entry cm ct).1.getD dn) with
  | none => simp [hl]
  | some coord =>
    cases ha : getAttr coord "units" with
    | none => simp [hl, ha]
    | some su =>
      cases hcu : convert_units_coord coord ((cm_entry cm ct).2.getD du) su with
      | ok conv => simp [hl, ha, hcu]
      | error e2 =>
        have he2 := convert_units_coord_error_shape _ _ _ _ hcu
        subst he2
        simp [hl, ha, hcu]

/-- C8: when more than one coordinate satisfies a role's predicate, the
per-role translation step raises the classification-conflict `ValueError`
naming that role, performing no rename or conversion; hence `translate`
fails so on a dataset with two coordinates satisfying the latitude
predicate (latitude being the first registered role). -/
theorem c8_role_conflict :
    (∀ (default_out_name default_units : String) (p : DataArray → Bool)
        (cf_type : String) (ds : Dataset) (cm : CoordModel),
        1 < (match_values p ds.coords).length →
        translator default_out_name default_units p cf_type ds cm
          = .error (.roleConflict cf_type))
    ∧ (∀ (ds : Dataset) (cm : CoordModel),
        1 < (match_values is_latitude ds.coords).length →
        translate ds cm TRANSLATORS = .error (.roleConflict "latitude")) := by
  have part1 : ∀ (dn du : String) (p : DataArray → Bool) (ct : String)
      (ds : Dataset) (cm : CoordModel),
      1 < (match_values p ds.coords).length →
      translator dn du p ct ds cm = .error (.roleConflict ct) := by
    intro dn du p ct ds cm h
    unfold translator
    rw [if_pos h]
  refine ⟨part1, fun ds cm h => ?_⟩
  unfold translate TRANSLATORS
  exact except_foldlM_error _ _ _ _ _
    (part1 "latitude" "degrees_north" is_latitude "latitude" ds cm h)

/-- Witness for C8: a dataset with two latitude-like coordinates. -/
theorem c8_role_conflict_witness :
    translate c8_dataset COORD_MODEL TRANSLATORS
      = .error (.roleConflict "latitude") :=
  c8_role_conflict.2 c8_dataset COORD_MODEL (by decide)

/-- C9: with exactly one predicate match, the per-role step raises the
naming-conflict error iff a coordinate other than the match already bears
the canonical name; in particular, when the match itself bears the
canonical name, no naming-conflict error is raised and the rename is the
identity (the step may still fail later in unit conversion, see C1). -/
theorem c9_naming_conflict_iff (dn du : String) (p : DataArray → Bool)
    (ct : String) (ds : Dataset) (cm : CoordModel) (mtch : String)
    (hm : match_values p ds.coords = [mtch]) :
    (translator dn du p ct ds cm = .error (.namingConflict ct)
        ↔ ∃ nc ∈ ds.coords, nc.1 = (cm_entry cm ct).1.getD dn ∧ nc.1 ≠ mtch)
    ∧ (mtch = (cm_entry cm ct).1.getD dn →
        (∀ e : String,
          translator dn du p ct ds cm ≠ .error (.namingConflict e))
        ∧ rename ds mtch ((cm_entry cm ct).1.getD dn) = ds) := by
  constructor
  · constructor
    · intro herr
      by_contra hno
      have hany : ds.coords.any (fun nc =>
          nc.1 == (cm_entry cm ct).1.getD dn && nc.1 != mtch) = false := by
        rw [List.any_eq_false]
        intro nc hnc hb
        rw [Bool.and_eq_true, beq_iff_eq, bne_iff_ne] at hb
        exact hno ⟨nc, hnc, hb.1, hb.2⟩
      exact translator_no_naming_conflict dn du p ct ds cm mtch hm hany ct herr
    · rintro ⟨nc, hnc, h1, h2⟩
      apply translator_name_conflict dn du p ct ds cm mtch hm
      rw [List.any_eq_true]
      refine ⟨nc, hnc, ?_⟩
      rw [Bool.and_eq_true, beq_iff_eq, bne_iff_ne]
      exact ⟨h1, h2⟩
  · intro heq
    have hany : ds.coords.any (fun nc =>
        nc.1 == (cm_entry cm ct).1.getD dn && nc.1 != mtch) = false := by
      rw [List.any_eq_false]
      intro nc hnc hb
      rw [Bool.and_eq_true, beq_iff_eq, bne_iff_ne] at hb
      exact hb.2 (hb.1.trans heq.symm)
    refine ⟨translator_no_naming_conflict dn du p ct ds cm mtch hm hany, ?_⟩
    rw [← heq, rename_same]

/-- Witness for C9: the single latitude coordinate already bears the
canonical name, so no naming-conflict error arises and the rename is the
identity. -/
theorem c9_naming_conflict_iff_witness :
    translator "latitude" "degrees_north" is_latitude "latitude" c9_dataset
        COORD_MODEL ≠ .error (.namingConflict "latitude")
    ∧ rename c9_dataset "latitude" "latitude" = c9_dataset := by
  have h := (c9_naming_conflict_iff "latitude" "degrees_north" is_latitude
    "latitude" c9_dataset COORD_MODEL "latitude" (by decide)).2 rfl
  exact ⟨h.1 "latitude", h.2⟩

/-- C10: when a coordinate satisfying the valid-time predicate already
exists, `ensure_valid_time_present` returns its name with empty-string
reference and period names (whatever other coordinates exist); hence when
that coordinate is not an indexing dimension and no coordinate is named by
the empty string, `ensure_valid_time` fails with the unguarded key lookup
`data.coords['']` instead of returning a dataset. -/
theorem c10_existing_valid_time (ds : Dataset) (v : String)
    (rest : List String)
    (hv : match_values is_valid_time ds.coords = v :: rest) :
    ensure_valid_time_present ds "valid_time" = .ok (ds, v, "", "")
    ∧ (v ∉ ds.dims → lookupCoord ds "" = none →
        ensure_valid_time ds = .error (.keyError "")) := by
  have h1 : ensure_valid_time_present ds "valid_time" = .ok (ds, v, "", "") := by
    unfold ensure_valid_time_present
    rw [hv]
  refine ⟨h1, fun hdim hlook => ?_⟩
  unfold ensure_valid_time
  rw [h1]
  dsimp only
  rw [if_neg hdim, hlook]

/-- Witness for C10: a dataset with an existing non-dimension valid-time
coordinate next to a reference-time coordinate. -/
theorem c10_existing_valid_time_witness :
    ensure_valid_time_present c10_dataset "valid_time"
      = .ok (c10_dataset, "vt", "", "")
    ∧ ensure_valid_time c10_dataset = .error (.keyError "") := by
  have h := c10_existing_valid_time c10_dataset "vt" [] (by decide)
  exact ⟨h.1, h.2 (by decide) (by decide)⟩

/-- C4 (code bug): on a dataset where the derived valid-time coordinate has
six elements, the reference time two and the period three, the code still
swaps the period dimension for valid time, because line 163 compares the
period size with itself; the claim (and the spec's intended comparison)
says the dataset should be returned unchanged when the valid-time count
matches neither. -/
theorem c4_swap_despite_size_mismatch :
    (ensure_valid_time c4_dataset).map (fun d => d.dims)
      = .ok ["t", "valid_time"]
    ∧ (ensure_valid_time c4_dataset).map
        (fun d => (lookupCoord d "valid_time").map (fun c => c.values.length))
      = .ok (some 6)
    ∧ (ensure_valid_time c4_dataset).map
        (fun d => (lookupCoord d "s").map (fun c => c.values.length))
      = .ok (some 3) := by
  refine ⟨by decide, by decide, by decide⟩

/-- C1 (code bug): on a dataset whose single coordinate carries units
'degree_north' (and nothing else matches the latitude predicate or is
named 'latitude'), `translate` matches it as latitude and then raises
`ConversionError` while converting 'degree_north' to 'degrees_north':
degree units appear in no conversion rule table and `convert_units`
re-raises, so no renamed dataset is returned, contrary to the claim that
no error is raised. -/
theorem c1_translate_degree_north_raises :
    match_values is_latitude c1_dataset.coords = ["lat"]
    ∧ translate c1_dataset COORD_MODEL TRANSLATORS
        = .error (.conversionError "degree_north" "degrees_north") := by
  refine ⟨by decide, by decide⟩

/-- C3 (code bug): the vertical-pressure translation step on a coordinate
with units 'Pa' converts the values from Pa to hPa (100 becomes 1) but
records the canonical unit under the misspelled attribute key 'untis'
while the 'units' key ends up absent (xarray arithmetic drops attrs), so
the recorded 'units' attribute does not equal the canonical unit string
'hPa'. -/
theorem c3_units_attr_typo :
    (translator "level" "hPa" is_vertical_pressure "vertical_pressure"
        c3_dataset COORD_MODEL).map
      (fun out => (lookupCoord out "level").map
        (fun c => (getAttr c "units", getAttr c "untis")))
      = .ok (some (none, some "hPa"))
    ∧ (translator "level" "hPa" is_vertical_pressure "vertical_pressure"
        c3_dataset COORD_MODEL).map
      (fun out => (lookupCoord out "level").map (fun c => c.values))
      = .ok (some [1]) := by
  have hconv : convert_units_coord
      { dims := ["level"], values := [100], attrs := [("units", "Pa")],
        dtype := "float64" } "hPa" "Pa"
      = .ok { dims := ["level"], values := [100 * (1 / 100)], attrs := [],
              dtype := "float64" } := by
    rw [convert_units_coord, if_neg (by decide), scf_hPa_Pa]
    rfl
  have hstep : translator "level" "hPa" is_vertical_pressure
      "vertical_pressure" c3_dataset COORD_MODEL
      = .ok (setCoordAttr
          (setCoord (rename c3_dataset "lev" "level") "level"
            { dims := ["level"], values := [100 * (1 / 100)], attrs := [],
              dtype := "float64" })
          "level" "untis" "hPa") := by
    rw [translator_single_match "level" "hPa" is_vertical_pressure
      "vertical_pressure" c3_dataset COORD_MODEL "lev" (by decide) (by decide)]
    rw [show (cm_entry COORD_MODEL "vertical_pressure").1.getD "level"
        = "level" from rfl,
      show (cm_entry COORD_MODEL "vertical_pressure").2.getD "hPa"
        = "hPa" from rfl]
    rw [show lookupCoord (rename c3_dataset "lev" "level") "level"
        = some { dims := ["level"], values := [100],
                 attrs := [("units", "Pa")], dtype := "float64" } from rfl]
    dsimp only
    rw [show getAttr
        { dims := ["level"], values := [100], attrs := [("units", "Pa")],
          dtype := "float64" } "units" = some "Pa" from rfl]
    dsimp only
    rw [hconv]
  constructor
  · rw [hstep]
    show Except.ok _ = _
    dsimp only
    rw [lookupCoord_setCoordAttr_same, lookupCoord_setCoord_same]
    rfl
  · rw [hstep]
    show Except.ok _ = _
    dsimp only
    rw [lookupCoord_setCoordAttr_same, lookupCoord_setCoord_same]
    norm_num [setAttr_values]

/-- C2: with no coordinate matching the valid-time predicate,
`ensure_valid_time_present` raises the derivation error when no coordinate
matches the forecast-reference-time predicate; otherwise it adds a derived
'valid_time' coordinate equal element-wise to reference time plus period
when a period coordinate exists (returning both names, non-empty), and
equal to the reference-time coordinate alone otherwise (returning an empty
period name), tagging the derived coordinate so that it satisfies the
valid-time predicate.  Coordinate names are assumed non-empty; the sum is
element-wise when the two coordinates share their dimensions. -/
theorem c2_ensure_valid_time_present (ds : Dataset)
    (hn : ∀ nc ∈ ds.coords, nc.1 ≠ "")
    (hv : match_values is_valid_time ds.coords = []) :
    (match_values is_forecast_reference_time ds.coords = [] →
      ensure_valid_time_present ds "valid_time" = .error .derivationError)
    ∧ (∀ (time : String) (ts : List String) (step : String)
        (ss : List String) (tc sc : DataArray),
        match_values is_forecast_reference_time ds.coords = time :: ts →
        match_values is_forecast_period ds.coords = step :: ss →
        lookupCoord ds time = some tc →
        lookupCoord ds step = some sc →
        time ≠ "" ∧ step ≠ ""
        ∧ ensure_valid_time_present ds "valid_time"
            = .ok (setCoordAttr (setCoord ds "valid_time" (addDA tc sc))
                     "valid_time" "standard_name" "time",
                   "valid_time", time, step)
        ∧ lookupCoord (setCoordAttr (setCoord ds "valid_time" (addDA tc sc))
                     "valid_time" "standard_name" "time") "valid_time"
            = some (setAttr (addDA tc sc) "standard_name" "time")
        ∧ (tc.dims = sc.dims →
            (setAttr (addDA tc sc) "standard_name" "time").values
              = List.zipWith (fun x y => x + y) tc.values sc.values)
        ∧ is_valid_time (setAttr (addDA tc sc) "standard_name" "time") = true)
    ∧ (∀ (time : String) (ts : List String) (tc : DataArray),
        match_values is_forecast_reference_time ds.coords = time :: ts →
        match_values is_forecast_period ds.coords = [] →
        lookupCoord ds time = some tc →
        time ≠ ""
        ∧ ensure_valid_time_present ds "valid_time"
            = .ok (setCoordAttr (setCoord ds "valid_time" tc)
                     "valid_time" "standard_name" "time",
                   "valid_time", time, "")
        ∧ lookupCoord (setCoordAttr (setCoord ds "valid_time" tc)
                     "valid_time" "standard_name" "time") "valid_time"
            = some (setAttr tc "standard_name" "time")
        ∧ (setAttr tc "standard_name" "time").values = tc.values
        ∧ is_valid_time (setAttr tc "standard_name" "time") = true) := by
  refine ⟨?_, ?_, ?_⟩
  · intro ht
    unfold ensure_valid_time_present
    rw [hv, ht]
  · intro time ts step ss tc sc ht hs htc hsc
    have htime_mem : time ∈ match_values is_forecast_reference_time ds.coords := by
      rw [ht]
      exact List.mem_cons_self _ _
    obtain ⟨ctime, hctime⟩ := match_values_mem htime_mem
    have hstep_mem : step ∈ match_values is_forecast_period ds.coords := by
      rw [hs]
      exact List.mem_cons_self _ _
    obtain ⟨cstep, hcstep⟩ := match_values_mem hstep_mem
    refine ⟨hn (time, ctime) hctime, hn (step, cstep) hcstep, ?_, ?_, ?_, ?_⟩
    · unfold ensure_valid_time_present
      rw [hv, ht, hs]
      dsimp only
      rw [htc, hsc]
    · rw [lookupCoord_setCoordAttr_same, lookupCoord_setCoord_same]
      rfl
    · intro hd
      show (addDA tc sc).values = _
      rw [addDA, if_pos hd]
    · rw [is_valid_time, getAttr_setAttr_same, if_pos rfl]
  · intro time ts tc ht hs htc
    have htime_mem : time ∈ match_values is_forecast_reference_time ds.coords := by
      rw [ht]
      exact List.mem_cons_self _ _
    obtain ⟨ctime, hctime⟩ := match_values_mem htime_mem
    refine ⟨hn (time, ctime) hctime, ?_, ?_, rfl, ?_⟩
    · unfold ensure_valid_time_present
      rw [hv, ht, hs]
      dsimp only
      rw [htc]
    · rw [lookupCoord_setCoordAttr_same, lookupCoord_setCoord_same]
      rfl
    · rw [is_valid_time, getAttr_setAttr_same, if_pos rfl]

/-- Witness for C2 on a concrete dataset with both a reference-time and a
period coordinate on a shared dimension. -/
theorem c2_ensure_valid_time_present_witness :
    ("time" : String) ≠ "" ∧ ("step" : String) ≠ ""
    ∧ ensure_valid_time_present c2_dataset "valid_time"
        = .ok (setCoordAttr (setCoord c2_dataset "valid_time"
                 (addDA c2_time_coord c2_step_coord))
                 "valid_time" "standard_name" "time",
               "valid_time", "time", "step")
    ∧ lookupCoord (setCoordAttr (setCoord c2_dataset "valid_time"
                 (addDA c2_time_coord c2_step_coord))
                 "valid_time" "standard_name" "time") "valid_time"
        = some (setAttr (addDA c2_time_coord c2_step_coord)
            "standard_name" "time")
    ∧ (c2_time_coord.dims = c2_step_coord.dims →
        (setAttr (addDA c2_time_coord c2_step_coord)
            "standard_name" "time").values
          = List.zipWith (fun x y => x + y) c2_time_coord.values
              c2_step_coord.values)
    ∧ is_valid_time (setAttr (addDA c2_time_coord c2_step_coord)
        "standard_name" "time") = true :=
  (c2_ensure_valid_time_present c2_dataset (by decide) (by decide)).2.1
    "time" [] "step" [] c2_time_coord c2_step_coord (by decide) (by decide)
    rfl rfl

end Cfgrib
